import Mathlib

/-!
Verification of the site-metadata aggregation and exposure layer of the
dmitripavlutin.com repository: the Configuration Store
(`gatsby/config/site-metadata.js`), the Metadata Projection Accessor
(`src/hooks/useAuthorAndSiteInfo.ts`) and the presentational consumers
(`src/components/Affiliates/index.tsx`: the `Affiliates` card and the
`CarbonAd` wrapper), shallowly embedded in Lean.
-/

namespace SiteMetadataSpec

/-! ## Data model: the Configuration Store shapes (from `gatsby/config/site-metadata.js`) -/

/-- `siteInfo` group of the Configuration Store. -/
structure SiteInfo where
  title : String
  description : String
  metaTitle : String
  metaDescription : String
  url : String
  repositoryUrl : String
  githubCommentsRepository : String
  googleCustomSearchId : String
  deriving Repr, DecidableEq

/-- `authorInfo.profiles` mapping (closed key set). -/
structure AuthorProfiles where
  stackoverflow : String
  twitter : String
  linkedin : String
  github : String
  facebook : String
  deriving Repr, DecidableEq

/-- `authorInfo.nicknames` mapping (closed key set). -/
structure AuthorNicknames where
  twitter : String
  deriving Repr, DecidableEq

/-- `authorInfo` group of the Configuration Store. -/
structure AuthorInfo where
  name : String
  description : String
  job : String
  email : String
  jobTitle : String
  profiles : AuthorProfiles
  nicknames : AuthorNicknames
  deriving Repr, DecidableEq

/-- One entry of the `affiliates` sequence. -/
structure AffiliateOffer where
  tag : String
  courseTitle : String
  courseLink : String
  pitch : String
  deriving Repr, DecidableEq

/-- `emailSubscriptionService` integration descriptor. -/
structure EmailSubscriptionService where
  endpoint : String
  hiddenFieldName : String
  deriving Repr, DecidableEq

/-- `carbonAdsService` integration descriptor. -/
structure CarbonAdsService where
  scriptSrc : String
  isEnabled : Bool
  isProductionMode : Bool
  deriving Repr, DecidableEq

/-- One entry of `featured.popularPostsByCategory`. -/
structure FeaturedCategory where
  category : String
  slugs : List String
  deriving Repr, DecidableEq

/-- `featured` group of the Configuration Store. -/
structure Featured where
  popularPostsByCategory : List FeaturedCategory
  deriving Repr, DecidableEq

/-- The whole `module.exports` object of `gatsby/config/site-metadata.js`. -/
structure SiteMetadata where
  siteUrl : String
  siteInfo : SiteInfo
  authorInfo : AuthorInfo
  emailSubscriptionService : EmailSubscriptionService
  carbonAdsService : CarbonAdsService
  featured : Featured
  affiliates : List AffiliateOffer
  deriving Repr, DecidableEq

/-- The constant `siteUrl` of `gatsby/config/site-metadata.js`. -/
def siteUrl : String := "https://dmitripavlutin.com"

/-- The Configuration Store, translated literally from
`gatsby/config/site-metadata.js`.  The only environment-dependent value is
`carbonAdsService.isProductionMode`, computed from `process.env.NODE_ENV`
(modelled as an `Option String`, `none` meaning the variable is absent) by
`NODE_ENV === 'production' || NODE_ENV === 'prod'`. -/
def siteMetadata (nodeEnv : Option String) : SiteMetadata where
  siteUrl := siteUrl
  siteInfo :=
    { title := "Dmitri Pavlutin"
      description := "I help developers understand Frontend technologies"
      metaTitle := "Dmitri Pavlutin Blog"
      metaDescription :=
        "Dmitri Pavlutin Blog is a place to learn about JavaScript, CSS, React, Vue and more on Frontend development"
      url := siteUrl
      repositoryUrl := "https://github.com/panzerdp/dmitripavlutin.com"
      githubCommentsRepository := "panzerdp/dmitripavlutin.com-comments"
      googleCustomSearchId := "004443697379288327791:1zr8pgnumxn" }
  authorInfo :=
    { name := "Dmitri Pavlutin"
      description :=
        "Tech writer and coach. My daily routine consists of (but not limited to) drinking coffee, coding, writing, coaching, overcoming boredom 😉."
      job := ""
      email := "dmitripavlutin@gmail.com"
      jobTitle := "Software Developer"
      profiles :=
        { stackoverflow := "https://stackoverflow.com/users/1894471/dmitri-pavlutin"
          twitter := "https://twitter.com/panzerdp"
          linkedin := "https://www.linkedin.com/in/dmitri-pavlutin/"
          github := "https://github.com/panzerdp"
          facebook := "https://www.facebook.com/dmitripavlutin.dev" }
      nicknames := { twitter := "panzerdp" } }
  emailSubscriptionService :=
    { endpoint :=
        "https://dmitripavlutin.us13.list-manage.com/subscribe/post?u=7cedcb1f5ab74eb7c907e768e&id=75f44f92b9"
      hiddenFieldName := "b_7cedcb1f5ab74eb7c907e768e_75f44f92b9" }
  carbonAdsService :=
    { scriptSrc := "//cdn.carbonads.com/carbon.js?serve=CE7DT2QI&placement=dmitripavlutincom"
      isEnabled := true
      isProductionMode := nodeEnv == some "production" || nodeEnv == some "prod" }
  featured :=
    { popularPostsByCategory :=
        [{ category := "JavaScript"
           slugs :=
             ["javascript-closure",
              "gentle-explanation-of-this-in-javascript",
              "differences-between-arrow-and-regular-functions"] },
         { category := "React"
           slugs :=
             ["react-useeffect-explanation",
              "react-usecallback",
              "use-react-memo-wisely"] }] }
  affiliates :=
    [{ tag := "react"
       courseTitle := "React Front To Back Course"
       courseLink := "https://www.traversymedia.com/a/2147528895/FqXWyazh"
       pitch := "This is just an example of pitch" },
     { tag := "javascript"
       courseTitle := "Modern JavaScript From The Beginning 2.0"
       courseLink := "https://www.traversymedia.com/a/2147528886/FqXWyazh"
       pitch := "This is just an example of pitch" }]

/-! ## Image descriptor and `getSrc`

The profile-picture descriptor is produced by the external image pipeline
(`gatsby-plugin-image`), outside this repository.  The spec treats it as an
opaque multi-resolution/multi-format descriptor and `getSrc` as a pure
extraction of a single URL string from it. -/

/-- The fallback entry of a processed-image descriptor. -/
structure ImageFallback where
  src : String
  srcSet : String
  sizes : String
  deriving Repr, DecidableEq

/-- One modern-format source entry of a processed-image descriptor. -/
structure ImageSource where
  srcSet : String
  mimeType : String
  sizes : String
  deriving Repr, DecidableEq

/-- The `images` group of a processed-image descriptor. -/
structure ImageDescriptorImages where
  sources : List ImageSource
  fallback : ImageFallback
  deriving Repr, DecidableEq

/-- A processed-image descriptor (`gatsbyImageData`): multiple
resolutions/formats plus a fallback, with layout dimensions. -/
structure ImageDescriptor where
  images : ImageDescriptorImages
  width : Nat
  height : Nat
  layout : String
  deriving Repr, DecidableEq

/-- Modelled from the spec: `getSrc` of `gatsby-plugin-image` is external to
this repository; §4.2 describes the `profilePictureSrc` derivation as "a pure,
side-effect-free extraction of a single URL string from the richer image
descriptor", i.e. the URL of the descriptor's fallback representation. -/
def getSrc (image : ImageDescriptor) : String :=
  image.images.fallback.src

/-! ## The query result of `useAuthorAndSiteInfo`

The hook issues a static query for the Configuration Store fields plus the
processed profile picture.  Mirroring the generated GraphQL result types, the
object-valued nodes that the hook dereferences (`site`, `siteMetadata`,
`authorProfilePicture`, `childImageSharp`) are nullable; dereferencing a
missing node is a JavaScript `TypeError`. -/

/-- Runtime failure of a JavaScript evaluation. -/
inductive JsError where
  /-- Reading a property of `null`/`undefined` (the payload names the missing
  object). -/
  | typeError (missing : String)
  /-- Resolving an identifier that is bound in no enclosing scope. -/
  | referenceError (name : String)
  deriving Repr, DecidableEq

/-- The `childImageSharp` node of the query result. -/
structure QImageSharp where
  gatsbyImageData : ImageDescriptor
  deriving Repr, DecidableEq

/-- The `authorProfilePicture: file(...)` node of the query result. -/
structure QFile where
  childImageSharp : Option QImageSharp
  deriving Repr, DecidableEq

/-- The `siteMetadata` node of the query result: the Configuration Store
fields the query selects (`authorInfo`, `siteInfo`, `affiliates`). -/
structure QSiteMetadata where
  authorInfo : AuthorInfo
  siteInfo : SiteInfo
  affiliates : List AffiliateOffer
  deriving Repr, DecidableEq

/-- The `site` node of the query result. -/
structure QSite where
  siteMetadata : Option QSiteMetadata
  deriving Repr, DecidableEq

/-- The resolved `AuthorInfoAndPictures` query result. -/
structure AuthorInfoAndPicturesQuery where
  site : Option QSite
  authorProfilePicture : Option QFile
  deriving Repr, DecidableEq

/-- Dereference an object that may be `null`/`undefined`: a property access on
a missing object throws a `TypeError`. -/
def deref {α : Type} (o : Option α) (missing : String) : Except JsError α :=
  match o with
  | some v => Except.ok v
  | none => Except.error (JsError.typeError missing)

/-! ## The Metadata Projection Accessor (`src/hooks/useAuthorAndSiteInfo.ts`) -/

/-- The `author` group of the accessor's result. -/
structure ProjectedAuthor where
  info : AuthorInfo
  profilePicture : ImageDescriptor
  profilePictureSrc : String
  deriving Repr, DecidableEq

/-- The accessor's output shape (`ProjectedMetadata` of the spec). -/
structure ProjectedMetadata where
  author : ProjectedAuthor
  site : SiteInfo
  affiliates : List AffiliateOffer
  deriving Repr, DecidableEq

/-- The body of `useAuthorAndSiteInfo` after `useStaticQuery` has resolved,
translated statement by statement from `src/hooks/useAuthorAndSiteInfo.ts`:
`imageData = data.authorProfilePicture.childImageSharp.gatsbyImageData`, then
the grouped return object reading `data.site.siteMetadata.{authorInfo,
siteInfo, affiliates}`.  Each dereference of a nullable node can throw. -/
def useAuthorAndSiteInfo (data : AuthorInfoAndPicturesQuery) :
    Except JsError ProjectedMetadata := do
  let picture ← deref data.authorProfilePicture "authorProfilePicture"
  let sharp ← deref picture.childImageSharp "childImageSharp"
  let imageData := sharp.gatsbyImageData
  let siteNode ← deref data.site "site"
  let meta ← deref siteNode.siteMetadata "siteMetadata"
  return { author :=
             { info := meta.authorInfo
               profilePicture := imageData
               profilePictureSrc := getSrc imageData }
           site := meta.siteInfo
           affiliates := meta.affiliates }

/-- Successful resolution of the accessor's query by the external data layer
against a Configuration Store: every requested node is present, the metadata
fields are served verbatim from the store and the named image asset resolves
to a processed descriptor. -/
def resolveQuery (store : SiteMetadata) (picture : ImageDescriptor) :
    AuthorInfoAndPicturesQuery where
  site :=
    some { siteMetadata :=
             some { authorInfo := store.authorInfo
                    siteInfo := store.siteInfo
                    affiliates := store.affiliates } }
  authorProfilePicture :=
    some { childImageSharp := some { gatsbyImageData := picture } }

/-! ## Invocation model

`useAuthorAndSiteInfo` performs one read against the external data layer
(`useStaticQuery`) and is otherwise pure.  The stateful wrapper makes the
effect explicit: the data layer is threaded as state, the hook reads it and
leaves it untouched. -/

/-- The external data layer as seen by the hook: it serves the resolved
static-query result. -/
structure DataLayer where
  queryResult : AuthorInfoAndPicturesQuery
  deriving Repr, DecidableEq

/-- `useStaticQuery`: a read of the resolved query result from the external
data layer. -/
def useStaticQuery : StateM DataLayer AuthorInfoAndPicturesQuery := do
  let dl ← get
  return dl.queryResult

/-- One invocation of `useAuthorAndSiteInfo` with its `useStaticQuery` read
made explicit: query the data layer, then run the pure projection body. -/
def useAuthorAndSiteInfoInvoke :
    StateM DataLayer (Except JsError ProjectedMetadata) := do
  let data ← useStaticQuery
  return useAuthorAndSiteInfo data

/-! ## The `Affiliates` card (`src/components/Affiliates/index.tsx`)

The component destructures only `affiliates` from the accessor's result, yet
its JSX reads `info.email` and `info.name`.  Identifier resolution is modelled
explicitly: the render-time scope holds the bindings the source actually
introduces (the destructured `affiliates` plus the module-level imports and
the component itself), and evaluating an identifier looks it up there. -/

/-- A value an identifier can be bound to in the modelled component scope. -/
inductive ScopeVal where
  /-- A plain string value. -/
  | str (s : String)
  /-- The author-info record. -/
  | author (a : AuthorInfo)
  /-- The affiliates list. -/
  | offers (l : List AffiliateOffer)
  /-- An imported function or component. -/
  | func (name : String)
  /-- An imported module namespace object (e.g. `styles`). -/
  | moduleNs (name : String)
  deriving Repr, DecidableEq

/-- Resolve an identifier against the scope: an identifier bound in no
enclosing scope is a `ReferenceError`. -/
def resolveIdent (scope : List (String × ScopeVal)) (x : String) :
    Except JsError ScopeVal :=
  match scope.find? (fun b => b.1 == x) with
  | some b => Except.ok b.2
  | none => Except.error (JsError.referenceError x)

/-- Property read `v.field` for the string-valued fields the `Affiliates` JSX
uses (`email`, `name` of an author record); any other read is not a string. -/
def getStrField (v : ScopeVal) (field : String) : Except JsError String :=
  match v with
  | ScopeVal.author a =>
    if field == "email" then Except.ok a.email
    else if field == "name" then Except.ok a.name
    else Except.error (JsError.typeError field)
  | _ => Except.error (JsError.typeError field)

/-- The link attributes the `Affiliates` JSX computes from its scope. -/
structure AffiliatesLinks where
  iconHref : String
  iconTitle : String
  textHref : String
  textTitle : String
  deriving Repr, DecidableEq

/-- The scope in which the `Affiliates` JSX is evaluated: the destructuring
`const \x7b affiliates \x7d = useAuthorAndSiteInfo()` binds `affiliates`; the
enclosing module scope binds the imports `useAuthorAndSiteInfo` and `styles`
and the component `Affiliates` itself.  No binding named `info` exists. -/
def affiliatesScope (result : ProjectedMetadata) : List (String × ScopeVal) :=
  [("affiliates", ScopeVal.offers result.affiliates),
   ("useAuthorAndSiteInfo", ScopeVal.func "useAuthorAndSiteInfo"),
   ("styles", ScopeVal.moduleNs "./index.module.scss"),
   ("Affiliates", ScopeVal.func "Affiliates")]

/-- Render of the `Affiliates` component, translated from
`src/components/Affiliates/index.tsx`: destructure `affiliates` from the
accessor result, then evaluate the JSX, whose link attributes interpolate
`info.email` and `info.name`. -/
def Affiliates (result : ProjectedMetadata) : Except JsError AffiliatesLinks := do
  let scope := affiliatesScope result
  let infoVal ← resolveIdent scope "info"
  let email ← getStrField infoVal "email"
  let name ← getStrField infoVal "name"
  return { iconHref := "mailto:" ++ email
           iconTitle := "Write a message to " ++ name
           textHref := "mailto:" ++ email ++ "?subject=Book a JavaScript coaching session"
           textTitle := "Write a message to " ++ name }

/-! ## The `CarbonAd` wrapper (`src/components/Affiliates/index.tsx`, second
document: the `CarbonAd` component) -/

/-- Which banner the `CarbonAd` fragment contains. -/
inductive CarbonBanner where
  /-- `CarbonBannerLive` with the configured script source. -/
  | live (scriptSrc : String)
  /-- `CarbonBannerDemo`. -/
  | demo
  deriving Repr, DecidableEq

/-- The render result of `CarbonAd`. -/
inductive CarbonAdOutput where
  /-- The component returned `null`: nothing rendered. -/
  | nullOutput
  /-- The fragment: container `div` plus the chosen banner. -/
  | fragment (banner : CarbonBanner)
  deriving Repr, DecidableEq

/-- Render of the `CarbonAd` component, translated from its source: return
`null` when `isEnabled` is false, otherwise the fragment with the live banner
(carrying `scriptSrc`) when `isProductionMode` and the demo banner
otherwise. -/
def CarbonAd (svc : CarbonAdsService) : CarbonAdOutput :=
  if !svc.isEnabled then
    CarbonAdOutput.nullOutput
  else
    CarbonAdOutput.fragment
      (if svc.isProductionMode then CarbonBanner.live svc.scriptSrc
       else CarbonBanner.demo)

/-! ## Concrete fixtures -/

/-- A concrete processed descriptor for the fixed source asset
(`louvre.jpg`, width 300, constrained layout, AVIF plus automatic fallback),
used to instantiate witnesses. -/
def louvreDescriptor : ImageDescriptor where
  images :=
    { sources :=
        [{ srcSet := "/static/abc/louvre-300.avif 300w"
           mimeType := "image/avif"
           sizes := "(min-width: 300px) 300px, 100vw" }]
      fallback :=
        { src := "/static/abc/louvre-300.jpg"
          srcSet := "/static/abc/louvre-300.jpg 300w"
          sizes := "(min-width: 300px) 300px, 100vw" } }
  width := 300
  height := 200
  layout := "constrained"

/-! ## Claims -/

/-- C1: for every Configuration Store definition successfully resolved by the
data layer, `useAuthorAndSiteInfo` returns a `ProjectedMetadata` whose `site`,
`author.info` and `affiliates` fields are equal (deeply, with no
transformation of any scalar value) to the store's `siteInfo`, `authorInfo`
and `affiliates`. -/
theorem useAuthorAndSiteInfo_pure_projection
    (store : SiteMetadata) (picture : ImageDescriptor) :
    ∃ pm : ProjectedMetadata,
      useAuthorAndSiteInfo (resolveQuery store picture) = Except.ok pm ∧
      pm.site = store.siteInfo ∧
      pm.author.info = store.authorInfo ∧
      pm.affiliates = store.affiliates :=
  ⟨_, rfl, rfl, rfl, rfl⟩

/-- C2: `author.profilePictureSrc` is derived from `author.profilePicture` by
the pure extraction `getSrc`; it is non-empty whenever the resolved descriptor
carries a non-empty fallback URL; and for the same input image descriptor
every invocation yields the same URL string. -/
theorem profilePictureSrc_derived_stable_nonempty
    (store : SiteMetadata) (picture : ImageDescriptor)
    (hsrc : picture.images.fallback.src ≠ "") :
    ∃ pm : ProjectedMetadata,
      useAuthorAndSiteInfo (resolveQuery store picture) = Except.ok pm ∧
      pm.author.profilePictureSrc = getSrc pm.author.profilePicture ∧
      pm.author.profilePictureSrc ≠ "" ∧
      ∀ store2 : SiteMetadata, ∃ pm2 : ProjectedMetadata,
        useAuthorAndSiteInfo (resolveQuery store2 picture) = Except.ok pm2 ∧
        pm2.author.profilePictureSrc = pm.author.profilePictureSrc :=
  ⟨_, rfl, rfl, hsrc, fun _ => ⟨_, rfl, rfl⟩⟩

/-- Witness for C2 at the concrete store and descriptor. -/
theorem profilePictureSrc_derived_stable_nonempty_witness :
    louvreDescriptor.images.fallback.src ≠ "" ∧
    ∃ pm : ProjectedMetadata,
      useAuthorAndSiteInfo (resolveQuery (siteMetadata none) louvreDescriptor) =
        Except.ok pm ∧
      pm.author.profilePictureSrc = getSrc pm.author.profilePicture ∧
      pm.author.profilePictureSrc ≠ "" ∧
      ∀ store2 : SiteMetadata, ∃ pm2 : ProjectedMetadata,
        useAuthorAndSiteInfo (resolveQuery store2 louvreDescriptor) = Except.ok pm2 ∧
        pm2.author.profilePictureSrc = pm.author.profilePictureSrc :=
  ⟨by decide,
   profilePictureSrc_derived_stable_nonempty (siteMetadata none) louvreDescriptor
     (by decide)⟩

/-- C3: `carbonAdsService.isProductionMode` is true exactly when the
environment designation `NODE_ENV` is the string `production` or the string
`prod`, and in particular is false when the designation is absent. -/
theorem isProductionMode_iff_production_or_prod :
    (∀ nodeEnv : Option String,
      (siteMetadata nodeEnv).carbonAdsService.isProductionMode = true ↔
        (nodeEnv = some "production" ∨ nodeEnv = some "prod")) ∧
    (siteMetadata none).carbonAdsService.isProductionMode = false := by
  refine ⟨fun nodeEnv => ?_, by decide⟩
  simp [siteMetadata]

/-- Witness for C3 at concrete designations. -/
theorem isProductionMode_iff_production_or_prod_witness :
    (siteMetadata (some "prod")).carbonAdsService.isProductionMode = true ∧
    (siteMetadata (some "development")).carbonAdsService.isProductionMode ≠ true :=
  ⟨(isProductionMode_iff_production_or_prod.1 (some "prod")).mpr (Or.inr rfl),
   fun h =>
     absurd ((isProductionMode_iff_production_or_prod.1 (some "development")).mp h)
       (by decide)⟩

/-- C4: every render of the `Affiliates` component fails with a reference
error before producing output: the JSX reads `info.email` and `info.name`,
but the render scope binds only `affiliates` (plus the module imports), so
resolving `info` throws. -/
theorem Affiliates_render_referenceError (result : ProjectedMetadata) :
    Affiliates result = Except.error (JsError.referenceError "info") :=
  rfl

/-- C5: the projected `affiliates` sequence preserves the Configuration
Store's declared ordering; for the repository's example configuration the
offer tagged `react` is at index 0 and the offer tagged `javascript` at
index 1. -/
theorem affiliates_order_preserved
    (nodeEnv : Option String) (picture : ImageDescriptor) :
    ∃ pm : ProjectedMetadata,
      useAuthorAndSiteInfo (resolveQuery (siteMetadata nodeEnv) picture) =
        Except.ok pm ∧
      pm.affiliates = (siteMetadata nodeEnv).affiliates ∧
      (pm.affiliates.get? 0).map AffiliateOffer.tag = some "react" ∧
      (pm.affiliates.get? 1).map AffiliateOffer.tag = some "javascript" :=
  ⟨_, rfl, rfl, rfl, rfl⟩

/-- C6: invocations of `useAuthorAndSiteInfo` are idempotent: an invocation
leaves the external data layer unchanged (no side effect beyond the read),
and a repeated invocation against the resulting state returns a structurally
identical value. -/
theorem useAuthorAndSiteInfo_idempotent (dl : DataLayer) :
    (useAuthorAndSiteInfoInvoke.run dl).2 = dl ∧
    (useAuthorAndSiteInfoInvoke.run dl).1 =
      (useAuthorAndSiteInfoInvoke.run (useAuthorAndSiteInfoInvoke.run dl).2).1 :=
  ⟨rfl, rfl⟩

/-- C7: under the precondition that the data layer resolved the query with
every requested node present, `useAuthorAndSiteInfo` does not fail and its
result is fully populated: it returns `Except.ok` with every field of
`ProjectedMetadata` equal to the corresponding resolved value, reaching no
error branch. -/
theorem useAuthorAndSiteInfo_total_on_wellformed
    (data : AuthorInfoAndPicturesQuery) (siteNode : QSite) (meta : QSiteMetadata)
    (picture : QFile) (sharp : QImageSharp)
    (hsite : data.site = some siteNode)
    (hmeta : siteNode.siteMetadata = some meta)
    (hpic : data.authorProfilePicture = some picture)
    (hsharp : picture.childImageSharp = some sharp) :
    ∃ pm : ProjectedMetadata,
      useAuthorAndSiteInfo data = Except.ok pm ∧
      pm.author.info = meta.authorInfo ∧
      pm.author.profilePicture = sharp.gatsbyImageData ∧
      pm.author.profilePictureSrc = getSrc sharp.gatsbyImageData ∧
      pm.site = meta.siteInfo ∧
      pm.affiliates = meta.affiliates := by
  rcases data with ⟨s, p⟩
  rcases siteNode with ⟨sm⟩
  rcases picture with ⟨ci⟩
  dsimp at hsite hmeta hpic hsharp
  subst hsite hpic
  subst hmeta hsharp
  exact ⟨_, rfl, rfl, rfl, rfl, rfl, rfl⟩

/-- Witness for C7 at a concrete fully resolved query result. -/
theorem useAuthorAndSiteInfo_total_on_wellformed_witness :
    ∃ pm : ProjectedMetadata,
      useAuthorAndSiteInfo (resolveQuery (siteMetadata none) louvreDescriptor) =
        Except.ok pm ∧
      pm.author.info = (siteMetadata none).authorInfo ∧
      pm.author.profilePicture = louvreDescriptor ∧
      pm.author.profilePictureSrc = getSrc louvreDescriptor ∧
      pm.site = (siteMetadata none).siteInfo ∧
      pm.affiliates = (siteMetadata none).affiliates :=
  useAuthorAndSiteInfo_total_on_wellformed
    (resolveQuery (siteMetadata none) louvreDescriptor)
    { siteMetadata :=
        some { authorInfo := (siteMetadata none).authorInfo
               siteInfo := (siteMetadata none).siteInfo
               affiliates := (siteMetadata none).affiliates } }
    { authorInfo := (siteMetadata none).authorInfo
      siteInfo := (siteMetadata none).siteInfo
      affiliates := (siteMetadata none).affiliates }
    { childImageSharp := some { gatsbyImageData := louvreDescriptor } }
    { gatsbyImageData := louvreDescriptor }
    rfl rfl rfl rfl

/-- C8: `CarbonAd` renders nothing when `isEnabled` is false; when enabled it
renders the live banner carrying the configured `scriptSrc` exactly when
`isProductionMode` is true, and the demo banner otherwise. -/
theorem CarbonAd_render_cases (svc : CarbonAdsService) :
    (svc.isEnabled = false → CarbonAd svc = CarbonAdOutput.nullOutput) ∧
    (svc.isEnabled = true → svc.isProductionMode = true →
      CarbonAd svc = CarbonAdOutput.fragment (CarbonBanner.live svc.scriptSrc)) ∧
    (svc.isEnabled = true → svc.isProductionMode = false →
      CarbonAd svc = CarbonAdOutput.fragment CarbonBanner.demo) := by
  rcases svc with ⟨src, e, p⟩
  cases e <;> cases p <;> simp [CarbonAd]

/-- Witness for C8 at the three concrete flag combinations. -/
theorem CarbonAd_render_cases_witness :
    CarbonAd { scriptSrc := "s", isEnabled := false, isProductionMode := false } =
      CarbonAdOutput.nullOutput ∧
    CarbonAd { scriptSrc := "s", isEnabled := true, isProductionMode := true } =
      CarbonAdOutput.fragment (CarbonBanner.live "s") ∧
    CarbonAd { scriptSrc := "s", isEnabled := true, isProductionMode := false } =
      CarbonAdOutput.fragment CarbonBanner.demo :=
  ⟨(CarbonAd_render_cases _).1 rfl,
   (CarbonAd_render_cases _).2.1 rfl rfl,
   (CarbonAd_render_cases _).2.2 rfl rfl⟩

/-- C9: every field of `siteInfo` is present and non-empty in the
Configuration Store, and `siteInfo` does not vary with the only runtime
input (the environment designation), so the invariant holds for the whole
process lifetime. -/
theorem siteInfo_fields_nonempty_immutable (nodeEnv : Option String) :
    (siteMetadata nodeEnv).siteInfo.title ≠ "" ∧
    (siteMetadata nodeEnv).siteInfo.description ≠ "" ∧
    (siteMetadata nodeEnv).siteInfo.metaTitle ≠ "" ∧
    (siteMetadata nodeEnv).siteInfo.metaDescription ≠ "" ∧
    (siteMetadata nodeEnv).siteInfo.url ≠ "" ∧
    (siteMetadata nodeEnv).siteInfo.repositoryUrl ≠ "" ∧
    (siteMetadata nodeEnv).siteInfo.githubCommentsRepository ≠ "" ∧
    (siteMetadata nodeEnv).siteInfo.googleCustomSearchId ≠ "" ∧
    ∀ nodeEnv2 : Option String,
      (siteMetadata nodeEnv).siteInfo = (siteMetadata nodeEnv2).siteInfo := by
  have h : (siteMetadata nodeEnv).siteInfo = (siteMetadata none).siteInfo := rfl
  rw [h]
  exact ⟨by decide, by decide, by decide, by decide, by decide, by decide,
    by decide, by decide, fun _ => rfl⟩

/-- C10: two evaluations of the Configuration Store under different
environment designations differ at most in
`carbonAdsService.isProductionMode`: overriding that single field makes them
equal, so it is the only environment-derived value. -/
theorem siteMetadata_env_dependence_only_isProductionMode
    (env1 env2 : Option String) :
    siteMetadata env1 =
      { siteMetadata env2 with
          carbonAdsService :=
            { (siteMetadata env2).carbonAdsService with
                isProductionMode :=
                  (siteMetadata env1).carbonAdsService.isProductionMode } } :=
  rfl

end SiteMetadataSpec
